import Mathlib

/-!
Shallow embedding of the bank-ledger program in `src/main.py`.

Modelling decisions:
* Monetary amounts (Python `float`) are embedded as exact rationals `ℚ`;
  the spec describes balances as decimal monetary quantities.
* `datetime.now().strftime(...)` is a wall-clock read; each operation that
  records a history entry takes the timestamp string as an explicit
  parameter (`Bank.transfer` takes two, one per internal clock read).
* The Python `dict` `Bank.accounts` (unique keys, insertion order) is
  embedded as an association list `List (String × Account)`; assignment
  `self.accounts[k] = v` is `setAccount` (replace in place if the key is
  present, append otherwise), membership `k in self.accounts` is
  `(lookupAcc k accs).isSome`.
* Python exceptions are embedded as `Except`.  `Account` methods validate
  before mutating, so they return `Except BankError Account` (an error
  means the account object was not touched).  `Bank` methods return
  `Except (BankError × Bank) Bank`, where the error carries the bank state
  at the moment the exception is raised; this makes partial mutation
  observable, so atomicity is a theorem rather than a modelling artifact.
* `json.dump` / `json.load` round-trip Python dicts and lists exactly
  (order preserved), so the snapshot file is embedded as the structured
  value `Snapshot`; a missing file on load is the `none` case.
-/

/-- Error taxonomy of `src/main.py`: Python `ValueError`,
`InsufficientFundsError`, `AccountNotFoundError`, each carrying its
message. -/
inductive BankError where
  | valueError (msg : String)
  | insufficientFunds (msg : String)
  | accountNotFound (msg : String)
  deriving DecidableEq, Repr

/-- An account as in class `Account` of `src/main.py`: account number,
holder name, balance, and the transaction-history list of
`(timestamp, description)` tuples. -/
structure Account where
  account_number : String
  name : String
  balance : ℚ
  transactions : List (String × String)
  deriving DecidableEq, Repr

/-- `Account.deposit` (src/main.py lines 24-31): rejects `amount ≤ 0` with
`ValueError`, otherwise adds `amount` to the balance and appends one
history tuple. -/
def Account.deposit (a : Account) (now : String) (amount : ℚ) :
    Except BankError Account :=
  if amount ≤ 0 then
    .error (.valueError "Deposit amount must be positive.")
  else
    .ok { a with
          balance := a.balance + amount
          transactions :=
            a.transactions ++ [(now, "Deposited ₹" ++ toString amount)] }

/-- `Account.withdraw` (src/main.py lines 33-42): rejects `amount ≤ 0`
with `ValueError` and `amount > balance` with `InsufficientFundsError`,
otherwise subtracts `amount` and appends one history tuple. -/
def Account.withdraw (a : Account) (now : String) (amount : ℚ) :
    Except BankError Account :=
  if amount ≤ 0 then
    .error (.valueError "Withdrawal amount must be positive.")
  else if a.balance < amount then
    .error (.insufficientFunds "Insufficient funds for withdrawal.")
  else
    .ok { a with
          balance := a.balance - amount
          transactions :=
            a.transactions ++ [(now, "Withdrew ₹" ++ toString amount)] }

/-- `Account.get_balance` (src/main.py lines 44-46). -/
def Account.get_balance (a : Account) : ℚ := a.balance

/-- `Account.get_transaction_history` (src/main.py lines 48-50). -/
def Account.get_transaction_history (a : Account) : List (String × String) :=
  a.transactions

/-- First-match association-list lookup: the embedding of reading the
Python dict `self.accounts[k]` / `k in self.accounts`. -/
def lookupAcc (k : String) : List (String × Account) → Option Account
  | [] => none
  | (k2, v) :: rest => if k = k2 then some v else lookupAcc k rest

/-- The embedding of the Python dict assignment
`self.accounts[k] = v`: replace the entry in place when the key is
present, append it otherwise. -/
def setAccount : List (String × Account) → String → Account →
    List (String × Account)
  | [], k, v => [(k, v)]
  | (k2, v2) :: rest, k, v =>
    if k2 = k then (k, v) :: rest else (k2, v2) :: setAccount rest k v

/-- The bank ledger as in class `Bank` of `src/main.py`: its name and the
accounts dict. -/
structure Bank where
  name : String
  accounts : List (String × Account)
  deriving DecidableEq, Repr

/-- `Bank.create_account` (src/main.py lines 63-68): duplicate account
numbers raise `ValueError` (before any mutation); otherwise a fresh
`Account` with the given initial deposit and empty history is inserted. -/
def Bank.create_account (b : Bank) (account_number nm : String)
    (initial_deposit : ℚ) : Except (BankError × Bank) Bank :=
  if (lookupAcc account_number b.accounts).isSome then
    .error (.valueError "Account number already exists.", b)
  else
    .ok { b with
          accounts := setAccount b.accounts account_number
            ⟨account_number, nm, initial_deposit, []⟩ }

/-- `Bank.get_account` (src/main.py lines 70-74): raises
`AccountNotFoundError` on a missing key. -/
def Bank.get_account (b : Bank) (account_number : String) :
    Except BankError Account :=
  match lookupAcc account_number b.accounts with
  | none => .error (.accountNotFound "Account not found.")
  | some a => .ok a

/-- `Bank.deposit_to_account` (src/main.py lines 76-80): look the account
up, then delegate to `Account.deposit`; on an exception the bank is as it
was (both the lookup and the deposit validate before mutating). -/
def Bank.deposit_to_account (b : Bank) (now account_number : String)
    (amount : ℚ) : Except (BankError × Bank) Bank :=
  match b.get_account account_number with
  | .error e => .error (e, b)
  | .ok acc =>
    match acc.deposit now amount with
    | .error e => .error (e, b)
    | .ok acc2 =>
      .ok { b with accounts := setAccount b.accounts account_number acc2 }

/-- `Bank.withdraw_from_account` (src/main.py lines 82-86). -/
def Bank.withdraw_from_account (b : Bank) (now account_number : String)
    (amount : ℚ) : Except (BankError × Bank) Bank :=
  match b.get_account account_number with
  | .error e => .error (e, b)
  | .ok acc =>
    match acc.withdraw now amount with
    | .error e => .error (e, b)
    | .ok acc2 =>
      .ok { b with accounts := setAccount b.accounts account_number acc2 }

/-- `Bank.transfer` (src/main.py lines 88-98), step for step: same-account
check, source lookup, destination lookup, positivity check, withdraw from
the source, deposit to the destination.  The error value carries the bank
state at the moment the exception is raised; in particular an exception
from the final deposit would leave the source already debited (`b2`). -/
def Bank.transfer (b : Bank) (nowW nowD from_acc_no to_acc_no : String)
    (amount : ℚ) : Except (BankError × Bank) Bank :=
  if from_acc_no = to_acc_no then
    .error (.valueError "Cannot transfer to the same account.", b)
  else
    match b.get_account from_acc_no with
    | .error e => .error (e, b)
    | .ok from_acc =>
      match b.get_account to_acc_no with
      | .error e => .error (e, b)
      | .ok to_acc =>
        if amount ≤ 0 then
          .error (.valueError "Transfer amount must be positive.", b)
        else
          match from_acc.withdraw nowW amount with
          | .error e => .error (e, b)
          | .ok from_acc2 =>
            let b2 : Bank :=
              { b with accounts := setAccount b.accounts from_acc_no from_acc2 }
            match to_acc.deposit nowD amount with
            | .error e => .error (e, b2)
            | .ok to_acc2 =>
              .ok { b2 with
                    accounts := setAccount b2.accounts to_acc_no to_acc2 }

/-- One serialized account of the JSON snapshot written by
`Bank.save_data` (src/main.py lines 111-123). -/
structure AccountData where
  name : String
  balance : ℚ
  transactions : List (String × String)
  deriving DecidableEq, Repr

/-- The snapshot file: a JSON object keyed by account number, in the
dict's insertion order. -/
abbrev Snapshot := List (String × AccountData)

/-- `Bank.save_data` (src/main.py lines 111-123): serialize every
account's name, balance and transactions, keyed by account number. -/
def Bank.save_data (b : Bank) : Snapshot :=
  b.accounts.map fun p => (p.1, ⟨p.2.name, p.2.balance, p.2.transactions⟩)

/-- `Bank.load_data` (src/main.py lines 125-136): a missing file
(`none`) is not an error and changes nothing; otherwise every snapshot
entry is rebuilt into an `Account` and stored under its key. -/
def Bank.load_data (b : Bank) (file : Option Snapshot) : Bank :=
  match file with
  | none => b
  | some data =>
    { b with
      accounts := data.foldl
        (fun accs p =>
          setAccount accs p.1 ⟨p.1, p.2.name, p.2.balance, p.2.transactions⟩)
        b.accounts }

/-- Sum of all balances in an accounts list (for conservation of money in
transfers). -/
def sumBalances (accs : List (String × Account)) : ℚ :=
  (accs.map fun p => p.2.balance).sum

/-- The key set of an accounts list, in order. -/
def accKeys (accs : List (String × Account)) : List String :=
  accs.map Prod.fst

/-- One deposit or withdraw call against a single account, with its
timestamp and amount. -/
inductive AccountOp where
  | deposit (now : String) (amount : ℚ)
  | withdraw (now : String) (amount : ℚ)
  deriving DecidableEq, Repr

/-- Run one deposit/withdraw call against an account.  On an exception the
account is unchanged — the Python methods validate before mutating — and
the caller catches the error and continues, as the menu loop in `main`
does. -/
def Account.run (a : Account) : AccountOp → Account
  | .deposit now amt =>
    match a.deposit now amt with
    | .ok a2 => a2
    | .error _ => a
  | .withdraw now amt =>
    match a.withdraw now amt with
    | .ok a2 => a2
    | .error _ => a

/-- Run a whole sequence of deposit/withdraw calls, each either applied or
rejected. -/
def Account.runAll (a : Account) (ops : List AccountOp) : Account :=
  ops.foldl Account.run a

/-- An empty bank, as built by `Bank("AI National Bank")`. -/
def bank0 : Bank := ⟨"AI National Bank", []⟩

/-- Sample account `A`: balance 100 and two history entries (the spec's
save/load round-trip scenario). -/
def acctA : Account :=
  ⟨"A", "Asha", 100, [("t1", "Deposited ₹60"), ("t2", "Withdrew ₹10")]⟩

/-- Sample account `B`: balance 50 and no history entries. -/
def acctB : Account := ⟨"B", "Ravi", 50, []⟩

/-- Sample two-account bank for concrete checks. -/
def bankAB : Bank := ⟨"AI National Bank", [("A", acctA), ("B", acctB)]⟩

/-- Is this error a Python `ValueError` (the exception class the code uses
for the spec's `InvalidAmount`, `SameAccountTransfer` and
`DuplicateAccount` conditions)? -/
def BankError.isValueError : BankError → Bool
  | .valueError _ => true
  | _ => false

/-- The error carried by a bank operation's result, if any. -/
def errOf (r : Except (BankError × Bank) Bank) : Option BankError :=
  match r with
  | .error (e, _) => some e
  | .ok _ => none

/-- The state of `bankAB` after transferring 30 from `A` to `B`
(timestamps `tW`, `tD`): used to exercise the frame property
concretely. -/
def bankAB2 : Bank :=
  ⟨"AI National Bank",
   [("A", ⟨"A", "Asha", 70,
      [("t1", "Deposited ₹60"), ("t2", "Withdrew ₹10"),
       ("tW", "Withdrew ₹" ++ toString (30 : ℚ))]⟩),
    ("B", ⟨"B", "Ravi", 80,
      [("tD", "Deposited ₹" ++ toString (30 : ℚ))]⟩)]⟩

theorem lookupAcc_setAccount_self (accs : List (String × Account))
    (k : String) (v : Account) :
    lookupAcc k (setAccount accs k v) = some v := by
  induction accs with
  | nil => simp [setAccount, lookupAcc]
  | cons p rest ih =>
    by_cases h : p.1 = k
    · simp [setAccount, h, lookupAcc]
    · have h2 : ¬k = p.1 := Ne.symm h
      simp [setAccount, h, lookupAcc, h2, ih]

theorem lookupAcc_setAccount_ne (accs : List (String × Account))
    (k k2 : String) (v : Account) (h : k2 ≠ k) :
    lookupAcc k2 (setAccount accs k v) = lookupAcc k2 accs := by
  induction accs with
  | nil => simp [setAccount, lookupAcc, h]
  | cons p rest ih =>
    by_cases hp : p.1 = k
    · by_cases hq : k2 = p.1
      · exact absurd (hq.trans hp) h
      · have hq2 : ¬k2 = k := h
        simp [setAccount, hp, lookupAcc, hq, hq2, hp ▸ hq]
    · by_cases hq : k2 = p.1
      · simp [setAccount, hp, lookupAcc, hq]
      · simp [setAccount, hp, lookupAcc, hq, ih]

theorem setAccount_eq_append (accs : List (String × Account))
    (k : String) (v : Account) (h : lookupAcc k accs = none) :
    setAccount accs k v = accs ++ [(k, v)] := by
  induction accs with
  | nil => simp [setAccount]
  | cons p rest ih =>
    by_cases hp : k = p.1
    · simp [lookupAcc, hp] at h
    · simp [lookupAcc, hp] at h
      simp [setAccount, Ne.symm hp, ih h]

theorem accKeys_setAccount (accs : List (String × Account))
    (k : String) (v : Account) (h : (lookupAcc k accs).isSome) :
    accKeys (setAccount accs k v) = accKeys accs := by
  induction accs with
  | nil => simp [lookupAcc] at h
  | cons p rest ih =>
    by_cases hp : p.1 = k
    · simp [setAccount, hp, accKeys]
    · simp [lookupAcc, Ne.symm hp] at h
      simp [setAccount, hp, accKeys] at ih ⊢
      exact ih h

theorem sumBalances_setAccount (accs : List (String × Account))
    (k : String) (v w : Account) (h : lookupAcc k accs = some w) :
    sumBalances (setAccount accs k v) =
      sumBalances accs - w.balance + v.balance := by
  induction accs with
  | nil => simp [lookupAcc] at h
  | cons p rest ih =>
    by_cases hp : p.1 = k
    · rw [lookupAcc, if_pos hp.symm] at h
      cases h
      simp [setAccount, hp, sumBalances]
      ring
    · rw [lookupAcc, if_neg (Ne.symm hp)] at h
      simp [setAccount, hp, sumBalances] at ih ⊢
      rw [ih h]
      ring

theorem Account.run_balance_nonneg (a : Account) (op : AccountOp)
    (h : 0 ≤ a.balance) : 0 ≤ (Account.run a op).balance := by
  cases op with
  | deposit now amt =>
    by_cases hle : amt ≤ 0
    · simp [Account.run, Account.deposit, hle, h]
    · push_neg at hle
      simp [Account.run, Account.deposit, not_le.mpr hle]
      positivity
  | withdraw now amt =>
    by_cases hle : amt ≤ 0
    · simp [Account.run, Account.withdraw, hle, h]
    · by_cases hlt : a.balance < amt
      · simp [Account.run, Account.withdraw, hle, hlt, h]
      · simp [Account.run, Account.withdraw, hle, hlt]
        push_neg at hlt
        linarith

theorem Account.runAll_balance_nonneg (ops : List AccountOp) (a : Account)
    (h : 0 ≤ a.balance) : 0 ≤ (Account.runAll a ops).balance := by
  induction ops generalizing a with
  | nil => exact h
  | cons op rest ih =>
    exact ih (Account.run a op) (Account.run_balance_nonneg a op h)

/-- C2: starting from a non-negative balance, any sequence of deposit and
withdraw calls — each either succeeding or rejected — leaves the balance
non-negative, and every invalid attempt (non-positive amount, or a
withdrawal exceeding the balance) leaves the account unchanged. -/
theorem balance_invariant (a : Account) (ops : List AccountOp)
    (h : 0 ≤ a.balance) :
    0 ≤ (Account.runAll a ops).balance ∧
    (∀ now amt, amt ≤ 0 → Account.run a (.deposit now amt) = a) ∧
    (∀ now amt, amt ≤ 0 ∨ a.balance < amt →
      Account.run a (.withdraw now amt) = a) := by
  refine ⟨Account.runAll_balance_nonneg ops a h, ?_, ?_⟩
  · intro now amt hle
    simp [Account.run, Account.deposit, hle]
  · intro now amt hbad
    rcases hbad with hle | hlt
    · simp [Account.run, Account.withdraw, hle]
    · by_cases hle : amt ≤ 0
      · simp [Account.run, Account.withdraw, hle]
      · simp [Account.run, Account.withdraw, hle, hlt]

theorem balance_invariant_witness :
    0 ≤ (Account.runAll acctA
      [AccountOp.deposit "t3" 7, AccountOp.withdraw "t4" 200,
       AccountOp.withdraw "t5" 107]).balance :=
  (balance_invariant acctA
    [AccountOp.deposit "t3" 7, AccountOp.withdraw "t4" 200,
     AccountOp.withdraw "t5" 107] (by norm_num [acctA])).1

/-- C3: `withdraw` fails with `ValueError` (InvalidAmount) when
`amount ≤ 0` and with `InsufficientFundsError` when `amount > balance`,
in both cases leaving balance and history unchanged; otherwise it
decreases the balance by exactly `amount` and appends exactly one history
entry.  Withdrawing exactly the current balance succeeds and yields
balance 0. -/
theorem withdraw_spec (a : Account) (now : String) (amount : ℚ) :
    (amount ≤ 0 →
      a.withdraw now amount =
        .error (.valueError "Withdrawal amount must be positive.") ∧
      Account.run a (.withdraw now amount) = a) ∧
    (0 < amount → a.balance < amount →
      a.withdraw now amount =
        .error (.insufficientFunds "Insufficient funds for withdrawal.") ∧
      Account.run a (.withdraw now amount) = a) ∧
    (0 < amount → amount ≤ a.balance →
      ∃ a2, a.withdraw now amount = .ok a2 ∧
        a2.balance = a.balance - amount ∧
        ∃ entry, a2.transactions = a.transactions ++ [entry]) ∧
    (0 < a.balance →
      ∃ a2, a.withdraw now a.balance = .ok a2 ∧ a2.balance = 0) := by
  refine ⟨?_, ?_, ?_, ?_⟩
  · intro hle
    constructor
    · simp [Account.withdraw, hle]
    · simp [Account.run, Account.withdraw, hle]
  · intro hpos hlt
    constructor
    · simp [Account.withdraw, not_le.mpr hpos, hlt]
    · simp [Account.run, Account.withdraw, not_le.mpr hpos, hlt]
  · intro hpos hle
    refine ⟨{ a with
              balance := a.balance - amount
              transactions :=
                a.transactions ++ [(now, "Withdrew ₹" ++ toString amount)] },
            ?_, rfl, ⟨(now, "Withdrew ₹" ++ toString amount), rfl⟩⟩
    simp [Account.withdraw, not_le.mpr hpos, not_lt.mpr hle]
  · intro hpos
    refine ⟨{ a with
              balance := a.balance - a.balance
              transactions :=
                a.transactions ++
                  [(now, "Withdrew ₹" ++ toString a.balance)] },
            ?_, by simp⟩
    simp [Account.withdraw, not_le.mpr hpos, lt_irrefl]

theorem withdraw_spec_witness :
    (∃ a2, acctB.withdraw "t9" 50 = .ok a2 ∧
      a2.balance = acctB.balance - 50 ∧
      ∃ entry, a2.transactions = acctB.transactions ++ [entry]) ∧
    (∃ a2, acctB.withdraw "t9" acctB.balance = .ok a2 ∧ a2.balance = 0) ∧
    (acctB.withdraw "t9" 60 =
      .error (.insufficientFunds "Insufficient funds for withdrawal.") ∧
      Account.run acctB (.withdraw "t9" 60) = acctB) ∧
    (acctB.withdraw "t9" (-3) =
      .error (.valueError "Withdrawal amount must be positive.") ∧
      Account.run acctB (.withdraw "t9" (-3)) = acctB) :=
  ⟨(withdraw_spec acctB "t9" 50).2.2.1 (by norm_num)
      (by norm_num [acctB]),
   (withdraw_spec acctB "t9" 50).2.2.2 (by norm_num [acctB]),
   (withdraw_spec acctB "t9" 60).2.1 (by norm_num) (by norm_num [acctB]),
   (withdraw_spec acctB "t9" (-3)).1 (by norm_num)⟩

/-- C4: `deposit` fails with `ValueError` (InvalidAmount) when
`amount ≤ 0`, appending nothing to history; when `amount > 0` it
increases the balance by exactly `amount` and appends exactly one history
entry, with no upper bound on the amount or the resulting balance. -/
theorem deposit_spec (a : Account) (now : String) (amount : ℚ) :
    (amount ≤ 0 →
      a.deposit now amount =
        .error (.valueError "Deposit amount must be positive.") ∧
      Account.run a (.deposit now amount) = a) ∧
    (0 < amount →
      ∃ a2, a.deposit now amount = .ok a2 ∧
        a2.balance = a.balance + amount ∧
        ∃ entry, a2.transactions = a.transactions ++ [entry]) := by
  constructor
  · intro hle
    constructor
    · simp [Account.deposit, hle]
    · simp [Account.run, Account.deposit, hle]
  · intro hpos
    refine ⟨{ a with
              balance := a.balance + amount
              transactions :=
                a.transactions ++ [(now, "Deposited ₹" ++ toString amount)] },
            ?_, rfl, ⟨(now, "Deposited ₹" ++ toString amount), rfl⟩⟩
    simp [Account.deposit, not_le.mpr hpos]

theorem deposit_spec_witness :
    (∃ a2, acctB.deposit "t8" 1000000 = .ok a2 ∧
      a2.balance = acctB.balance + 1000000 ∧
      ∃ entry, a2.transactions = acctB.transactions ++ [entry]) ∧
    (acctB.deposit "t8" 0 =
      .error (.valueError "Deposit amount must be positive.") ∧
      Account.run acctB (.deposit "t8" 0) = acctB) :=
  ⟨(deposit_spec acctB "t8" 1000000).2 (by norm_num),
   (deposit_spec acctB "t8" 0).1 (by norm_num)⟩

/-- C8: from a non-negative balance, depositing `amount > 0` and then
withdrawing the same `amount` both succeed and restore the balance to
exactly its original value. -/
theorem deposit_withdraw_roundtrip (a : Account) (nowD nowW : String)
    (amount : ℚ) (h0 : 0 ≤ a.balance) (h1 : 0 < amount) :
    ∃ a1 a2, a.deposit nowD amount = .ok a1 ∧
      a1.withdraw nowW amount = .ok a2 ∧ a2.balance = a.balance := by
  obtain ⟨a1, hdep, hbal, -⟩ := (deposit_spec a nowD amount).2 h1
  obtain ⟨a2, hwit, hbal2, -⟩ :=
    (withdraw_spec a1 nowW amount).2.2.1 h1 (by rw [hbal]; linarith)
  exact ⟨a1, a2, hdep, hwit, by rw [hbal2, hbal]; ring⟩

theorem deposit_withdraw_roundtrip_witness :
    ∃ a1 a2, acctA.deposit "t6" 25 = .ok a1 ∧
      a1.withdraw "t7" 25 = .ok a2 ∧ a2.balance = acctA.balance :=
  deposit_withdraw_roundtrip acctA "t6" "t7" 25 (by norm_num [acctA])
    (by norm_num)

/-- C1: transfer is atomic.  Whenever `transfer` raises any error
(same-account, invalid amount, account not found, or insufficient funds),
the bank state carried out with the error is exactly the state before the
call: no account's balance or history changed, and in particular the
source was never left debited.  The deposit-error branch, the only one
that could expose a partially mutated bank, is unreachable because the
amount was already checked positive before the withdrawal. -/
theorem transfer_atomic (b : Bank) (nowW nowD from_acc_no to_acc_no : String)
    (amount : ℚ) (e : BankError) (b2 : Bank)
    (h : b.transfer nowW nowD from_acc_no to_acc_no amount =
      .error (e, b2)) :
    b2 = b := by
  unfold Bank.transfer at h
  split at h
  · simp only [Except.error.injEq, Prod.mk.injEq] at h
    exact h.2.symm
  · split at h
    · simp only [Except.error.injEq, Prod.mk.injEq] at h
      exact h.2.symm
    · split at h
      · simp only [Except.error.injEq, Prod.mk.injEq] at h
        exact h.2.symm
      · split at h
        · simp only [Except.error.injEq, Prod.mk.injEq] at h
          exact h.2.symm
        · rename_i hle
          split at h
          · simp only [Except.error.injEq, Prod.mk.injEq] at h
            exact h.2.symm
          · simp only [Account.deposit, if_neg hle] at h
            cases h

theorem transfer_atomic_witness : bankAB = bankAB :=
  transfer_atomic bankAB "tW" "tD" "A" "C" 10
    (.accountNotFound "Account not found.") bankAB (by rfl)

/-- C5 counterexample: with both accounts missing and `amount = 0 ≤ 0`,
`transfer` raises `AccountNotFoundError`, not the `ValueError` that
signals an invalid amount — the code looks both accounts up before it
checks the amount, contrary to the claimed check order. -/
theorem transfer_amount_check_counterexample :
    bank0.transfer "tW" "tD" "A" "B" 0 =
      .error (.accountNotFound "Account not found.", bank0) ∧
    (errOf (bank0.transfer "tW" "tD" "A" "B" 0)).map
      BankError.isValueError = some false := by
  constructor <;> rfl

/-- C5 amended: when `from_id ≠ to_id`, `amount ≤ 0`, and BOTH accounts
exist, `transfer` fails with `ValueError` (InvalidAmount), leaving the
bank unchanged; the amount check runs after the two account lookups, so
with a missing account the failure is `AccountNotFoundError` instead. -/
theorem transfer_invalid_amount (b : Bank) (nowW nowD f t : String)
    (amount : ℚ) (hne : f ≠ t) (hle : amount ≤ 0)
    (af : Account) (hf : lookupAcc f b.accounts = some af)
    (at2 : Account) (ht : lookupAcc t b.accounts = some at2) :
    b.transfer nowW nowD f t amount =
      .error (.valueError "Transfer amount must be positive.", b) := by
  simp [Bank.transfer, Bank.get_account, hne, hf, ht, hle]

theorem transfer_invalid_amount_witness :
    bankAB.transfer "tW" "tD" "A" "B" (-2) =
      .error (.valueError "Transfer amount must be positive.", bankAB) :=
  transfer_invalid_amount bankAB "tW" "tD" "A" "B" (-2) (by decide)
    (by norm_num) acctA (by rfl) acctB (by rfl)

/-- C6: `create_account` with an existing account number fails with
`ValueError` (DuplicateAccount) and leaves the ledger exactly as it was;
with a fresh number it appends a new account holding the given initial
balance and an empty history, touching no existing account. -/
theorem create_account_spec (b : Bank) (id nm : String) (init : ℚ) :
    ((lookupAcc id b.accounts).isSome →
      b.create_account id nm init =
        .error (.valueError "Account number already exists.", b)) ∧
    (lookupAcc id b.accounts = none →
      b.create_account id nm init =
        .ok ⟨b.name, b.accounts ++ [(id, ⟨id, nm, init, []⟩)]⟩) := by
  constructor
  · intro h
    simp [Bank.create_account, h]
  · intro h
    simp [Bank.create_account, h,
      setAccount_eq_append b.accounts id ⟨id, nm, init, []⟩ h]

theorem create_account_spec_witness :
    (bankAB.create_account "A" "Mallory" 7 =
      .error (.valueError "Account number already exists.", bankAB)) ∧
    (bankAB.create_account "C" "Chitra" 7 =
      .ok ⟨bankAB.name, bankAB.accounts ++ [("C", ⟨"C", "Chitra", 7, []⟩)]⟩) :=
  ⟨(create_account_spec bankAB "A" "Mallory" 7).1 (by rfl),
   (create_account_spec bankAB "C" "Chitra" 7).2 (by rfl)⟩

/-- C9: loading when the snapshot file does not exist is not an error and
leaves the bank — in particular its accounts mapping — exactly as it
was. -/
theorem load_data_missing_file (b : Bank) :
    Bank.load_data b none = b ∧ (Bank.load_data b none).accounts = b.accounts :=
  ⟨rfl, rfl⟩

theorem lookupAcc_append_left_none (xs ys : List (String × Account))
    (k : String) (h : lookupAcc k xs = none) :
    lookupAcc k (xs ++ ys) = lookupAcc k ys := by
  induction xs with
  | nil => rfl
  | cons p rest ih =>
    by_cases hp : k = p.1
    · simp [lookupAcc, hp] at h
    · simp [lookupAcc, hp] at h ⊢
      exact ih h

theorem load_foldl_fresh (data : Snapshot) (accs : List (String × Account))
    (hnd : (data.map Prod.fst).Nodup)
    (hdisj : ∀ k ∈ data.map Prod.fst, lookupAcc k accs = none) :
    data.foldl
      (fun accs p =>
        setAccount accs p.1 ⟨p.1, p.2.name, p.2.balance, p.2.transactions⟩)
      accs =
    accs ++ data.map
      (fun p => (p.1,
        (⟨p.1, p.2.name, p.2.balance, p.2.transactions⟩ : Account))) := by
  induction data generalizing accs with
  | nil => simp
  | cons p rest ih =>
    simp only [List.foldl_cons, List.map_cons]
    rw [setAccount_eq_append accs p.1 _ (hdisj p.1 (by simp))]
    rw [ih]
    · simp
    · simp only [List.map_cons, List.nodup_cons] at hnd
      exact hnd.2
    · intro k hk
      have hkp : k ≠ p.1 := by
        simp only [List.map_cons, List.nodup_cons] at hnd
        intro hcontra
        exact hnd.1 (hcontra ▸ hk)
      rw [lookupAcc_append_left_none accs _ k (hdisj k (by simp [hk]))]
      simp [lookupAcc, hkp]

theorem map_rebuild_eq_self (accs : List (String × Account))
    (hwf : ∀ p ∈ accs, (p.2).account_number = p.1) :
    accs.map
      (fun p => (p.1,
        (⟨p.1, p.2.name, p.2.balance, p.2.transactions⟩ : Account))) =
      accs := by
  induction accs with
  | nil => rfl
  | cons p rest ih =>
    obtain ⟨k, a⟩ := p
    have h1 : a.account_number = k := hwf (k, a) (by simp)
    have h2 := ih fun q hq => hwf q (by simp [hq])
    cases a
    simp_all

/-- C7: save-then-load round trip.  For any bank whose accounts dict is
well formed (unique keys, each account stored under its own number),
saving the snapshot and loading it into a fresh bank reproduces exactly
the same accounts: same identifiers, holder names, balances and history
sequences, in the same order. -/
theorem save_load_roundtrip (b : Bank) (nm : String)
    (hkeys : (accKeys b.accounts).Nodup)
    (hwf : ∀ p ∈ b.accounts, (p.2).account_number = p.1) :
    (Bank.load_data ⟨nm, []⟩ (some b.save_data)).accounts = b.accounts := by
  show Bank.accounts _ = _
  simp only [Bank.load_data]
  rw [load_foldl_fresh]
  · rw [List.nil_append]
    have : (b.save_data).map
        (fun p => (p.1,
          (⟨p.1, p.2.name, p.2.balance, p.2.transactions⟩ : Account))) =
        b.accounts.map
          (fun p => (p.1,
            (⟨p.1, p.2.name, p.2.balance, p.2.transactions⟩ : Account))) := by
      simp [Bank.save_data, List.map_map]
    rw [this, map_rebuild_eq_self b.accounts hwf]
  · have : (b.save_data).map Prod.fst = accKeys b.accounts := by
      simp [Bank.save_data, accKeys, List.map_map]
    rw [this]
    exact hkeys
  · intro k _
    rfl

theorem save_load_roundtrip_witness :
    (Bank.load_data ⟨"Fresh Bank", []⟩ (some bankAB.save_data)).accounts =
      bankAB.accounts :=
  save_load_roundtrip bankAB "Fresh Bank" (by decide) (by decide)

theorem deposit_to_ok_shape (b : Bank) (now id : String) (amt : ℚ)
    (b2 : Bank) (h : b.deposit_to_account now id amt = .ok b2) :
    ∃ acc, lookupAcc id b.accounts = some acc ∧ 0 < amt ∧
      b2 = { b with accounts := setAccount b.accounts id
                      { acc with
                        balance := acc.balance + amt
                        transactions := acc.transactions ++
                          [(now, "Deposited ₹" ++ toString amt)] } } := by
  cases hl : lookupAcc id b.accounts with
  | none => simp [Bank.deposit_to_account, Bank.get_account, hl] at h
  | some acc =>
    by_cases hle : amt ≤ 0
    · simp [Bank.deposit_to_account, Bank.get_account, hl,
        Account.deposit, hle] at h
    · simp [Bank.deposit_to_account, Bank.get_account, hl,
        Account.deposit, hle] at h
      exact ⟨acc, rfl, not_le.mp hle, h.symm⟩

theorem withdraw_from_ok_shape (b : Bank) (now id : String) (amt : ℚ)
    (b2 : Bank) (h : b.withdraw_from_account now id amt = .ok b2) :
    ∃ acc, lookupAcc id b.accounts = some acc ∧ 0 < amt ∧
      amt ≤ acc.balance ∧
      b2 = { b with accounts := setAccount b.accounts id
                      { acc with
                        balance := acc.balance - amt
                        transactions := acc.transactions ++
                          [(now, "Withdrew ₹" ++ toString amt)] } } := by
  cases hl : lookupAcc id b.accounts with
  | none => simp [Bank.withdraw_from_account, Bank.get_account, hl] at h
  | some acc =>
    by_cases hle : amt ≤ 0
    · simp [Bank.withdraw_from_account, Bank.get_account, hl,
        Account.withdraw, hle] at h
    · by_cases hlt : acc.balance < amt
      · simp [Bank.withdraw_from_account, Bank.get_account, hl,
          Account.withdraw, hle, hlt] at h
      · simp [Bank.withdraw_from_account, Bank.get_account, hl,
          Account.withdraw, hle, hlt] at h
        exact ⟨acc, rfl, not_le.mp hle, not_lt.mp hlt, h.symm⟩

theorem transfer_ok_shape (b : Bank) (nowW nowD f t : String) (amt : ℚ)
    (b2 : Bank) (h : b.transfer nowW nowD f t amt = .ok b2) :
    f ≠ t ∧ 0 < amt ∧
    ∃ fa ta, lookupAcc f b.accounts = some fa ∧
      lookupAcc t b.accounts = some ta ∧ amt ≤ fa.balance ∧
      b2 = { b with accounts :=
                      setAccount
                        (setAccount b.accounts f
                          { fa with
                            balance := fa.balance - amt
                            transactions := fa.transactions ++
                              [(nowW, "Withdrew ₹" ++ toString amt)] })
                        t
                        { ta with
                          balance := ta.balance + amt
                          transactions := ta.transactions ++
                            [(nowD, "Deposited ₹" ++ toString amt)] } } := by
  by_cases hft : f = t
  · simp [Bank.transfer, hft] at h
  · cases hlf : lookupAcc f b.accounts with
    | none => simp [Bank.transfer, Bank.get_account, hft, hlf] at h
    | some fa =>
      cases hlt : lookupAcc t b.accounts with
      | none => simp [Bank.transfer, Bank.get_account, hft, hlf, hlt] at h
      | some ta =>
        by_cases hle : amt ≤ 0
        · simp [Bank.transfer, Bank.get_account, hft, hlf, hlt, hle] at h
        · by_cases hbal : fa.balance < amt
          · simp [Bank.transfer, Bank.get_account, hft, hlf, hlt, hle,
              Account.withdraw, hbal] at h
          · simp [Bank.transfer, Bank.get_account, hft, hlf, hlt, hle,
              Account.withdraw, Account.deposit, hbal] at h
            exact ⟨hft, not_le.mp hle, fa, ta, rfl, rfl, not_lt.mp hbal,
              h.symm⟩

/-- C10: frame property.  A successful `deposit_to_account` or
`withdraw_from_account` changes at most the single named account, and a
successful `transfer` changes at most the two named accounts: every other
account's entry is untouched and the ordered set of account numbers is
unchanged.  A successful transfer debits the source by exactly the amount,
credits the destination by exactly the amount, and therefore preserves the
sum of all balances. -/
theorem frame_property (b : Bank) (now nowW nowD id f t : String)
    (amt : ℚ) (b2 : Bank) :
    (b.deposit_to_account now id amt = .ok b2 →
      (∀ k, k ≠ id → lookupAcc k b2.accounts = lookupAcc k b.accounts) ∧
      accKeys b2.accounts = accKeys b.accounts) ∧
    (b.withdraw_from_account now id amt = .ok b2 →
      (∀ k, k ≠ id → lookupAcc k b2.accounts = lookupAcc k b.accounts) ∧
      accKeys b2.accounts = accKeys b.accounts) ∧
    (b.transfer nowW nowD f t amt = .ok b2 →
      (∀ k, k ≠ f → k ≠ t →
        lookupAcc k b2.accounts = lookupAcc k b.accounts) ∧
      accKeys b2.accounts = accKeys b.accounts ∧
      (∃ fa ta, lookupAcc f b.accounts = some fa ∧
        lookupAcc t b.accounts = some ta ∧
        (lookupAcc f b2.accounts).map Account.balance =
          some (fa.balance - amt) ∧
        (lookupAcc t b2.accounts).map Account.balance =
          some (ta.balance + amt)) ∧
      sumBalances b2.accounts = sumBalances b.accounts) := by
  refine ⟨?_, ?_, ?_⟩
  · intro h
    obtain ⟨acc, hl, hpos, rfl⟩ := deposit_to_ok_shape b now id amt b2 h
    constructor
    · intro k hk
      exact lookupAcc_setAccount_ne b.accounts id k _ hk
    · exact accKeys_setAccount b.accounts id _ (by rw [hl]; rfl)
  · intro h
    obtain ⟨acc, hl, hpos, hle, rfl⟩ := withdraw_from_ok_shape b now id amt b2 h
    constructor
    · intro k hk
      exact lookupAcc_setAccount_ne b.accounts id k _ hk
    · exact accKeys_setAccount b.accounts id _ (by rw [hl]; rfl)
  · intro h
    obtain ⟨hft, hpos, fa, ta, hlf, hlt, hble, rfl⟩ :=
      transfer_ok_shape b nowW nowD f t amt b2 h
    refine ⟨?_, ?_, ⟨fa, ta, hlf, hlt, ?_, ?_⟩, ?_⟩
    · intro k hkf hkt
      show lookupAcc k (setAccount (setAccount b.accounts f _) t _) = _
      rw [lookupAcc_setAccount_ne _ t k _ hkt,
        lookupAcc_setAccount_ne _ f k _ hkf]
    · show accKeys (setAccount (setAccount b.accounts f _) t _) = _
      rw [accKeys_setAccount _ t _
          (by rw [lookupAcc_setAccount_ne _ f t _ (Ne.symm hft), hlt]; rfl),
        accKeys_setAccount _ f _ (by rw [hlf]; rfl)]
    · show (lookupAcc f (setAccount (setAccount b.accounts f _) t _)).map
        Account.balance = _
      rw [lookupAcc_setAccount_ne _ t f _ hft, lookupAcc_setAccount_self]
      rfl
    · show (lookupAcc t (setAccount (setAccount b.accounts f _) t _)).map
        Account.balance = _
      rw [lookupAcc_setAccount_self]
      rfl
    · show sumBalances (setAccount (setAccount b.accounts f _) t _) = _
      rw [sumBalances_setAccount _ t _ ta
          (by rw [lookupAcc_setAccount_ne _ f t _ (Ne.symm hft)]; exact hlt),
        sumBalances_setAccount _ f _ fa hlf]
      simp only []
      ring

theorem frame_property_witness :
    lookupAcc "C" bankAB2.accounts = lookupAcc "C" bankAB.accounts ∧
    accKeys bankAB2.accounts = accKeys bankAB.accounts ∧
    sumBalances bankAB2.accounts = sumBalances bankAB.accounts := by
  have H :=
    (frame_property bankAB "tX" "tW" "tD" "X" "A" "B" 30 bankAB2).2.2
      (by
        have h1 : ¬("A" : String) = "B" := by decide
        have h2 : ¬("B" : String) = "A" := by decide
        norm_num [Bank.transfer, Bank.get_account, bankAB, acctA, acctB,
          lookupAcc, Account.withdraw, Account.deposit, setAccount, bankAB2,
          h1, h2])
  exact ⟨H.1 "C" (by decide) (by decide), H.2.1, H.2.2.2⟩
